import Mathlib

/-!
Shallow embedding of the Meshpulse service mesh (user, orders, payments
services) and proofs of its specified properties.

Each service is modelled as a pure function on an explicit state:
the keyed record stores become lists of records, and the metric cells the
specification talks about (the per-route error counter, the per-route
duration histogram, and the payments-total counter) become explicit
numeric fields.  Remote HTTP calls between services are modelled by
threading the peer state through the caller, with an explicit Bool per
outbound call saying whether transport succeeded (a transport failure and
an application-level 4xx are both surfaced to the caller as an exception
by raise_for_status, and the caller treats them identically).  The random
outcome draw of the payment simulation and the possibility of the final
DB commit raising are likewise explicit parameters.  Histograms are
modelled by the number of recorded samples, which is all the claims
inspect.  Monetary amounts (Python floats holding decimal prices) are
modelled as rationals.  The created_at timestamps are wall-clock values
no claim inspects and are omitted.
-/

namespace Meshpulse

/-- An HTTP error response, mirroring HTTPException(status_code, detail). -/
structure HErr where
  status_code : Nat
  detail : String
  deriving Repr, DecidableEq

/-! ## User service (src/services/user/main.py) -/

/-- A row of the users table. -/
structure User where
  id : String
  name : String
  email : String
  dob : String
  address : String
  deriving Repr, DecidableEq

/-- The request body of POST /users (pydantic model UserIn). -/
structure UserIn where
  id : String
  name : String
  email : String
  dob : String
  address : String
  deriving Repr, DecidableEq

/-- State of the user service: the users store plus the metric cells of the
user service, namely the error counter http.server.errors and the duration
histogram http.server.duration, both labeled route="/users/{user_id}"
(the histogram is modelled by its sample count). -/
structure UserState where
  users : List User
  errCtr : Nat
  hist : Nat
  deriving Repr, DecidableEq

/-- The response body of GET /users/{user_id}. -/
structure UserResp where
  user_id : String
  name : String
  email : String
  dob : String
  address : String
  deriving Repr, DecidableEq

/-- POST /users: conflict if the id exists, otherwise insert the record.
Neither path touches the error counter or the histogram. -/
def create_user (user : UserIn) (s : UserState) : Except HErr String × UserState :=
  match s.users.find? (fun u => u.id == user.id) with
  | some _ => (.error ⟨400, "User already exists"⟩, s)
  | none =>
      (.ok "created",
        { s with users := s.users ++ [⟨user.id, user.name, user.email, user.dob, user.address⟩] })

/-- GET /users/{user_id}: on a missing user, increment the error counter and
fail 404; on success, record one duration sample and return the full record. -/
def get_user (user_id : String) (s : UserState) : Except HErr UserResp × UserState :=
  match s.users.find? (fun u => u.id == user_id) with
  | none => (.error ⟨404, "User not found"⟩, { s with errCtr := s.errCtr + 1 })
  | some u => (.ok ⟨u.id, u.name, u.email, u.dob, u.address⟩, { s with hist := s.hist + 1 })

/-! ## Orders service (src/services/orders/main.py) -/

/-- A row of the orders table (created_at omitted, see module comment). -/
structure Order where
  id : String
  user_id : String
  item : String
  price : ℚ
  status : String
  deriving Repr, DecidableEq

/-- State of the orders service: the orders store plus the metric cells
labeled route="/orders/status/{order_id}". -/
structure OrdersState where
  orders : List Order
  errCtr : Nat
  hist : Nat
  deriving Repr, DecidableEq

/-- The response body of GET /orders/status/{order_id}. -/
structure OrderStatusResp where
  order_id : String
  user_id : String
  status : String
  deriving Repr, DecidableEq

/-- GET /orders/status/{order_id}: 404 with an error-counter increment when
the order is absent; otherwise an additional nested call to the user service
for the owner of the order (userTransportOk says whether that outbound call
reached the user service), failing 404 "User not found" when that call fails
for any reason, and recording one duration sample only on full success. -/
def get_order_status (order_id : String) (userTransportOk : Bool)
    (os : OrdersState) (us : UserState) :
    Except HErr OrderStatusResp × OrdersState × UserState :=
  match os.orders.find? (fun o => o.id == order_id) with
  | none => (.error ⟨404, "Order not found"⟩, { os with errCtr := os.errCtr + 1 }, us)
  | some order =>
      if userTransportOk then
        match get_user order.user_id us with
        | (.ok _, us') =>
            (.ok ⟨order.id, order.user_id, order.status⟩,
             { os with hist := os.hist + 1 }, us')
        | (.error _, us') => (.error ⟨404, "User not found"⟩, os, us')
      else
        (.error ⟨404, "User not found"⟩, os, us)

/-! ## Payments service (src/services/payments/main.py) -/

/-- A row of the payments table (created_at omitted, see module comment). -/
structure Payment where
  id : String
  order_id : String
  user_id : String
  amount : ℚ
  status : String
  deriving Repr, DecidableEq

/-- The request body of POST /payments (pydantic model PaymentIn). -/
structure PaymentIn where
  id : String
  order_id : String
  user_id : String
  amount : ℚ
  deriving Repr, DecidableEq

/-- State of the payments service: the payments store, the counter
payments.total.amount labeled status="Success" (payTotal), the counter
http.server.errors of the payments service (errCtr — declared in the source
but never added to), and the duration histograms for route="/payments"
(hist) and route="/payments/status/{order_id}" (histStatus). -/
structure PayState where
  payments : List Payment
  payTotal : ℚ
  errCtr : Nat
  hist : Nat
  histStatus : Nat
  deriving Repr, DecidableEq

/-- The whole mesh: one state per service. -/
structure World where
  userSvc : UserState
  orderSvc : OrdersState
  paySvc : PayState
  deriving Repr, DecidableEq

/-- The environment of one POST /payments request: whether transport
succeeds on each outbound call (payments to orders, the nested orders to
users call, payments to users), the value of the random.random() draw of
the outcome simulation, and whether the final DB commit succeeds. -/
structure Faults where
  orderCallTransport : Bool
  ordUserCallTransport : Bool
  userCallTransport : Bool
  draw : ℚ
  insertOk : Bool
  deriving Repr, DecidableEq

/-- A scalar span-attribute value. -/
inductive AttrVal where
  | s (v : String)
  | b (v : Bool)
  | q (v : ℚ)
  deriving Repr, DecidableEq

/-- Observable effects of one POST /payments request: the span attributes
set during the request and the URLs of the remote calls the payments
service issued. -/
structure PayEffects where
  attrs : List (String × AttrVal)
  remoteCalls : List String
  deriving Repr, DecidableEq

/-- The success response body of POST /payments. -/
structure PayResp where
  message : String
  status : String
  payment_id : String
  deriving Repr, DecidableEq

/-- The response body of GET /payments/status/{order_id}; the fields absent
from the "Not Paid" sentinel response are Options. -/
structure PayStatusResp where
  order_id : String
  status : String
  payment_id : Option String
  amount : Option ℚ
  deriving Repr, DecidableEq

/-- URL of the order-validation call issued by the payments service. -/
def orderStatusUrl (order_id : String) : String :=
  "http://orders-service:8002/orders/status/" ++ order_id

/-- URL of the user-validation call issued by the payments service. -/
def userLookupUrl (user_id : String) : String :=
  "http://user-service:8001/users/" ++ user_id

/-- The order-validation GET as seen by the payments service: on transport
failure the peers are untouched and the call raises; otherwise the raised
exception of a non-2xx response (raise_for_status) collapses any
application error into the same failure, returning none. -/
def callOrderStatus (transportOk : Bool) (order_id : String) (uT : Bool)
    (os : OrdersState) (us : UserState) :
    Option OrderStatusResp × OrdersState × UserState :=
  if transportOk then
    match get_order_status order_id uT os us with
    | (.ok r, os', us') => (some r, os', us')
    | (.error _, os', us') => (none, os', us')
  else (none, os, us)

/-- The user-validation GET as seen by the payments service: true when
transport succeeded and the user service answered 2xx. -/
def callGetUser (transportOk : Bool) (user_id : String) (us : UserState) :
    Bool × UserState :=
  if transportOk then
    match get_user user_id us with
    | (.ok _, us') => (true, us')
    | (.error _, us') => (false, us')
  else (false, us)

/-- Step 5 outcome simulation: Success when the random draw exceeds the
fixed 5% failure probability. -/
def simulate_status (draw : ℚ) : String :=
  if draw > (0.05 : ℚ) then "Success" else "Failed"

/-- POST /payments, the orchestrator.  Stages, mirroring the source:
1. idempotency check on the payment id (duplicate: 400, nothing else runs);
2. remote order validation (any failure: 404 Invalid order ID);
3. in-memory ownership comparison (mismatch: 400);
4. remote user validation (any failure: 404 Invalid user ID);
5. outcome simulation, adding amount to payTotal only on Success;
6. unconditional insert of the Payment row (a failing commit propagates as
   an unhandled 500 after the counter addition of stage 5);
then the success response, recording one duration sample only there. -/
def create_payment (payment : PaymentIn) (f : Faults) (w : World) :
    Except HErr PayResp × World × PayEffects :=
  let attrs0 : List (String × AttrVal) :=
    [("payment.id", AttrVal.s payment.id), ("payment.amount", AttrVal.q payment.amount),
     ("user.id", AttrVal.s payment.user_id), ("order.id", AttrVal.s payment.order_id)]
  match w.paySvc.payments.find? (fun p => p.id == payment.id) with
  | some _ =>
      (.error ⟨400, "Payment ID already exists"⟩, w,
        ⟨attrs0 ++ [("payment.duplicate", AttrVal.b true)], []⟩)
  | none =>
      match callOrderStatus f.orderCallTransport payment.order_id
          f.ordUserCallTransport w.orderSvc w.userSvc with
      | (none, os', us') =>
          (.error ⟨404, "Invalid order ID"⟩, { w with orderSvc := os', userSvc := us' },
            ⟨attrs0 ++ [("order.found", AttrVal.b false)], [orderStatusUrl payment.order_id]⟩)
      | (some order_data, os', us') =>
          let w2 : World := { w with orderSvc := os', userSvc := us' }
          let attrs2 := attrs0 ++ [("order.found", AttrVal.b true)]
          if order_data.user_id != payment.user_id then
            (.error ⟨400, "Order does not belong to user"⟩, w2,
              ⟨attrs2 ++ [("order.user.mismatch", AttrVal.b true)],
               [orderStatusUrl payment.order_id]⟩)
          else
            let attrs3 := attrs2 ++ [("order.user.mismatch", AttrVal.b false)]
            match callGetUser f.userCallTransport payment.user_id w2.userSvc with
            | (false, us2) =>
                (.error ⟨404, "Invalid user ID"⟩, { w2 with userSvc := us2 },
                  ⟨attrs3 ++ [("user.found", AttrVal.b false)],
                   [orderStatusUrl payment.order_id, userLookupUrl payment.user_id]⟩)
            | (true, us2) =>
                let attrs4 := attrs3 ++ [("user.found", AttrVal.b true)]
                let w3 : World := { w2 with userSvc := us2 }
                let status := simulate_status f.draw
                let attrs5 := attrs4 ++ [("payment.status", AttrVal.s status)]
                let pay1 := if status == "Success"
                  then { w3.paySvc with payTotal := w3.paySvc.payTotal + payment.amount }
                  else w3.paySvc
                if f.insertOk then
                  (.ok ⟨"Processed", status, payment.id⟩,
                    { w3 with paySvc :=
                        { pay1 with
                          payments := pay1.payments ++
                            [⟨payment.id, payment.order_id, payment.user_id,
                              payment.amount, status⟩],
                          hist := pay1.hist + 1 } },
                    ⟨attrs5, [orderStatusUrl payment.order_id, userLookupUrl payment.user_id]⟩)
                else
                  (.error ⟨500, "Internal Server Error"⟩, { w3 with paySvc := pay1 },
                    ⟨attrs5, [orderStatusUrl payment.order_id, userLookupUrl payment.user_id]⟩)

/-- GET /payments/status/{order_id}: read-only lookup by order_id, records
one duration sample on every path, returns either the stored payment or
the "Not Paid" sentinel as a 200 response. -/
def get_payment_status (order_id : String) (st : PayState) : PayStatusResp × PayState :=
  match st.payments.find? (fun p => p.order_id == order_id) with
  | some p => (⟨order_id, p.status, some p.id, some p.amount⟩,
               { st with histStatus := st.histStatus + 1 })
  | none => (⟨order_id, "Not Paid", none, none⟩,
             { st with histStatus := st.histStatus + 1 })

/-! ## Concrete fixtures for the closed instances -/

/-- A stored user. -/
def exUser : User := ⟨"U1", "Alice", "alice@example.com", "1990-01-01", "1 Main St"⟩

/-- A second stored user, owner of the second order. -/
def exUser2 : User := ⟨"U2", "Bob", "bob@example.com", "1991-02-02", "2 Main St"⟩

/-- A user-service state holding the two users. -/
def exUserSt : UserState := ⟨[exUser, exUser2], 0, 0⟩

/-- An order owned by U1. -/
def exOrder : Order := ⟨"O1", "U1", "book", 9.99, "pending"⟩

/-- An order owned by U2. -/
def exOrder2 : Order := ⟨"O2", "U2", "pen", 1, "pending"⟩

/-- An orders-service state holding the two orders. -/
def exOrdersSt : OrdersState := ⟨[exOrder, exOrder2], 0, 0⟩

/-- A payments-service state with no payments yet and all metric cells 0. -/
def exPaySt : PayState := ⟨[], 0, 0, 0, 0⟩

/-- The mesh assembled from the three fixture states. -/
def exWorld : World := ⟨exUserSt, exOrdersSt, exPaySt⟩

/-- A fault-free environment whose draw 1 forces the Success outcome. -/
def exFaults : Faults := ⟨true, true, true, 1, true⟩

/-- Same environment except the final DB commit fails. -/
def exFaultsNoInsert : Faults := ⟨true, true, true, 1, false⟩

/-- A fresh, valid, ownership-matching payment request. -/
def exPayment : PaymentIn := ⟨"P1", "O1", "U1", 9.99⟩

/-- A payment request naming an order id that no order has. -/
def exPaymentBadOrder : PaymentIn := ⟨"P3", "OX", "U1", 10⟩

/-- A payment request on the order of U2 issued for user U1. -/
def exPaymentMismatch : PaymentIn := ⟨"P4", "O2", "U1", 5⟩

/-- A payment request carrying a negative amount. -/
def exPaymentNeg : PaymentIn := ⟨"P6", "O1", "U1", -1⟩

/-- A user-creation request for a previously-unseen id. -/
def exUserIn : UserIn := ⟨"U7", "Carol", "carol@example.com", "1992-03-03", "7 Main St"⟩

/-! ## General lemmas -/

/-- Searching an appended list skips a prefix in which nothing matches. -/
theorem find?_append_of_none {α : Type} (p : α → Bool) (l m : List α)
    (h : l.find? p = none) : (l ++ m).find? p = m.find? p := by
  simp [List.find?_append, h]

/-- A 200 response of create_payment is only produced on the branch that has
appended the new Payment row, so afterwards the idempotency lookup on the
same id finds a row. -/
theorem create_payment_ok_recorded (payment : PaymentIn) (f : Faults) (w : World) :
    ((create_payment payment f w).2.1.paySvc.payments.find?
        (fun q => q.id == payment.id)).isSome = true ∨
      (create_payment payment f w).1.isOk = false := by
  simp only [create_payment]
  repeat' split
  all_goals first
    | exact Or.inr rfl
    | simp_all [Except.isOk, Except.toBool]

/-- Stage 1 of create_payment: when the idempotency lookup finds a row, the
request fails 400 with the duplicate attribute set, issues no remote call
and leaves the whole world unchanged. -/
theorem create_payment_duplicate_guard (payment : PaymentIn) (f : Faults) (w : World)
    (h : (w.paySvc.payments.find? (fun q => q.id == payment.id)).isSome = true) :
    create_payment payment f w =
      (.error ⟨400, "Payment ID already exists"⟩, w,
        ⟨[("payment.id", AttrVal.s payment.id), ("payment.amount", AttrVal.q payment.amount),
          ("user.id", AttrVal.s payment.user_id), ("order.id", AttrVal.s payment.order_id),
          ("payment.duplicate", AttrVal.b true)], []⟩) := by
  rcases hf : w.paySvc.payments.find? (fun q => q.id == payment.id) with _ | q
  · rw [hf] at h; simp at h
  · simp [create_payment, hf]

/-! ## Claims about the user service -/

/-- Claim C8: a successful create_user followed immediately by get_user on
the same id returns exactly the field values supplied at creation. -/
theorem user_roundtrip (u : UserIn) (s : UserState)
    (h : (create_user u s).1 = .ok "created") :
    (get_user u.id (create_user u s).2).1 =
      .ok ⟨u.id, u.name, u.email, u.dob, u.address⟩ := by
  rcases hf : s.users.find? (fun x => x.id == u.id) with _ | x
  · simp [create_user, get_user, hf, find?_append_of_none _ _ _ hf]
  · simp [create_user, hf] at h

/-- Closed instance of user_roundtrip at the fixture input. -/
theorem user_roundtrip_inst :
    (get_user exUserIn.id (create_user exUserIn exUserSt).2).1 =
      .ok ⟨exUserIn.id, exUserIn.name, exUserIn.email, exUserIn.dob, exUserIn.address⟩ :=
  user_roundtrip exUserIn exUserSt rfl

/-- Claim C9: get_user records a duration sample only on the success path,
and on the NotFound path it increments the error counter (leaving the
histogram unchanged) before failing 404. -/
theorem get_user_metrics (user_id : String) (s : UserState) :
    (s.users.find? (fun x => x.id == user_id) = none →
       (get_user user_id s).1 = .error ⟨404, "User not found"⟩ ∧
       (get_user user_id s).2.errCtr = s.errCtr + 1 ∧
       (get_user user_id s).2.hist = s.hist) ∧
    (∀ x, s.users.find? (fun y => y.id == user_id) = some x →
       (get_user user_id s).2.hist = s.hist + 1 ∧
       (get_user user_id s).2.errCtr = s.errCtr ∧
       (get_user user_id s).1 = .ok ⟨x.id, x.name, x.email, x.dob, x.address⟩) := by
  constructor
  · intro h; simp [get_user, h]
  · intro x h; simp [get_user, h]

/-- Closed instance of get_user_metrics on a missing user id. -/
theorem get_user_metrics_inst :
    (get_user "UX" exUserSt).1 = .error ⟨404, "User not found"⟩ ∧
    (get_user "UX" exUserSt).2.errCtr = exUserSt.errCtr + 1 ∧
    (get_user "UX" exUserSt).2.hist = exUserSt.hist :=
  (get_user_metrics "UX" exUserSt).1 rfl

/-! ## Claims about the orders service -/

/-- Claim C5: get_order_status fails 404 when the order is absent; when the
order exists it additionally validates the owner against the user service
and still fails 404 when that call fails for any reason (transport failure
or missing owner), succeeding only when the owner is currently resolvable. -/
theorem get_order_status_owner_coupling (order_id : String) (uT : Bool)
    (os : OrdersState) (us : UserState) :
    (os.orders.find? (fun o => o.id == order_id) = none →
       (get_order_status order_id uT os us).1 = .error ⟨404, "Order not found"⟩) ∧
    (∀ ord, os.orders.find? (fun o => o.id == order_id) = some ord →
       ((uT = false ∨ us.users.find? (fun x => x.id == ord.user_id) = none) →
          (get_order_status order_id uT os us).1 = .error ⟨404, "User not found"⟩) ∧
       (uT = true → ∀ u, us.users.find? (fun x => x.id == ord.user_id) = some u →
          (get_order_status order_id uT os us).1 = .ok ⟨ord.id, ord.user_id, ord.status⟩)) := by
  constructor
  · intro h; simp [get_order_status, h]
  · intro ord h
    constructor
    · rintro (huT | hu)
      · simp [get_order_status, h, huT]
      · cases uT <;> simp [get_order_status, get_user, h, hu]
    · rintro rfl u hu
      simp [get_order_status, get_user, h, hu]

/-- Closed instance of get_order_status_owner_coupling on a missing order. -/
theorem get_order_status_owner_coupling_inst :
    (get_order_status "OX" true exOrdersSt exUserSt).1 = .error ⟨404, "Order not found"⟩ :=
  (get_order_status_owner_coupling "OX" true exOrdersSt exUserSt).1 rfl

/-! ## Claims about the payments service -/

/-- Claim C7: get_payment_status on an order with no payment returns the
"Not Paid" sentinel as a 200 response, and on every input it leaves the
payments store, the payments-total counter and the error counter unchanged. -/
theorem get_payment_status_not_paid (order_id : String) (st : PayState) :
    (st.payments.find? (fun p => p.order_id == order_id) = none →
       (get_payment_status order_id st).1 = ⟨order_id, "Not Paid", none, none⟩) ∧
    (get_payment_status order_id st).2.payments = st.payments ∧
    (get_payment_status order_id st).2.payTotal = st.payTotal ∧
    (get_payment_status order_id st).2.errCtr = st.errCtr := by
  rcases h : st.payments.find? (fun p => p.order_id == order_id) with _ | p <;>
    simp [get_payment_status, h]

/-- Closed instance of get_payment_status_not_paid on the empty store. -/
theorem get_payment_status_not_paid_inst :
    (get_payment_status "O1" exPaySt).1 = ⟨"O1", "Not Paid", none, none⟩ :=
  (get_payment_status_not_paid "O1" exPaySt).1 rfl

/-- Claim C1: a payment request with a previously-unseen id and a valid,
ownership-matching order/user pair succeeds, exactly one Payment row keyed
by the request id exists afterwards, its status is Success or Failed (the
row is inserted in both outcomes), and the payments-total counter grows by
exactly the amount precisely when the status is Success. -/
theorem create_payment_fresh_valid (payment : PaymentIn) (f : Faults) (w : World)
    (ord : Order) (u : User)
    (hfresh : w.paySvc.payments.find? (fun p => p.id == payment.id) = none)
    (hord : w.orderSvc.orders.find? (fun o => o.id == payment.order_id) = some ord)
    (howner : ord.user_id = payment.user_id)
    (huser : w.userSvc.users.find? (fun x => x.id == payment.user_id) = some u)
    (hT1 : f.orderCallTransport = true)
    (hT2 : f.ordUserCallTransport = true)
    (hT3 : f.userCallTransport = true)
    (hins : f.insertOk = true) :
    (create_payment payment f w).1 =
      .ok ⟨"Processed", simulate_status f.draw, payment.id⟩ ∧
    (simulate_status f.draw = "Success" ∨ simulate_status f.draw = "Failed") ∧
    (create_payment payment f w).2.1.paySvc.payments.filter
        (fun q => q.id == payment.id) =
      [⟨payment.id, payment.order_id, payment.user_id, payment.amount,
        simulate_status f.draw⟩] ∧
    (create_payment payment f w).2.1.paySvc.payTotal =
      (if simulate_status f.draw = "Success" then w.paySvc.payTotal + payment.amount
       else w.paySvc.payTotal) := by
  have hfilter : w.paySvc.payments.filter (fun q => q.id == payment.id) = [] :=
    List.filter_eq_nil_iff.mpr (by simpa using List.find?_eq_none.mp hfresh)
  by_cases hd : f.draw > (0.05 : ℚ) <;>
    simp [create_payment, callOrderStatus, callGetUser, get_order_status, get_user,
      simulate_status, hfresh, hord, hT1, hT2, hT3, hins, howner, huser, hd,
      List.filter_append, hfilter]

/-- Closed instance of create_payment_fresh_valid at the fixture input. -/
theorem create_payment_fresh_valid_inst :
    (create_payment exPayment exFaults exWorld).1 =
      .ok ⟨"Processed", simulate_status exFaults.draw, exPayment.id⟩ ∧
    (simulate_status exFaults.draw = "Success" ∨
      simulate_status exFaults.draw = "Failed") ∧
    (create_payment exPayment exFaults exWorld).2.1.paySvc.payments.filter
        (fun q => q.id == exPayment.id) =
      [⟨exPayment.id, exPayment.order_id, exPayment.user_id, exPayment.amount,
        simulate_status exFaults.draw⟩] ∧
    (create_payment exPayment exFaults exWorld).2.1.paySvc.payTotal =
      (if simulate_status exFaults.draw = "Success"
       then exWorld.paySvc.payTotal + exPayment.amount
       else exWorld.paySvc.payTotal) :=
  create_payment_fresh_valid exPayment exFaults exWorld exOrder exUser
    rfl rfl rfl rfl rfl rfl rfl rfl

/-- Claim C2: once a create_payment call has returned a 200 response for an
id, a second sequential call with the same id fails 400 DuplicatePayment at
stage 1 with the duplicate attribute set, issues no remote call, and the
whole stored state and all counters are exactly the first call end state. -/
theorem create_payment_idempotent_second (payment : PaymentIn) (f1 f2 : Faults)
    (w : World) (r : PayResp)
    (h : (create_payment payment f1 w).1 = .ok r) :
    create_payment payment f2 (create_payment payment f1 w).2.1 =
      (.error ⟨400, "Payment ID already exists"⟩, (create_payment payment f1 w).2.1,
        ⟨[("payment.id", AttrVal.s payment.id), ("payment.amount", AttrVal.q payment.amount),
          ("user.id", AttrVal.s payment.user_id), ("order.id", AttrVal.s payment.order_id),
          ("payment.duplicate", AttrVal.b true)], []⟩) := by
  rcases create_payment_ok_recorded payment f1 w with hs | hbad
  · exact create_payment_duplicate_guard payment f2 _ hs
  · rw [h] at hbad; simp [Except.isOk, Except.toBool] at hbad

/-- Closed instance of create_payment_idempotent_second at the fixture input. -/
theorem create_payment_idempotent_second_inst :
    create_payment exPayment exFaults (create_payment exPayment exFaults exWorld).2.1 =
      (.error ⟨400, "Payment ID already exists"⟩,
       (create_payment exPayment exFaults exWorld).2.1,
        ⟨[("payment.id", AttrVal.s exPayment.id),
          ("payment.amount", AttrVal.q exPayment.amount),
          ("user.id", AttrVal.s exPayment.user_id),
          ("order.id", AttrVal.s exPayment.order_id),
          ("payment.duplicate", AttrVal.b true)], []⟩) :=
  create_payment_idempotent_second exPayment exFaults exFaults exWorld
    ⟨"Processed", "Success", "P1"⟩
    (by
      have hd : ((1 : ℚ) > 0.05) := by norm_num
      simp [create_payment, callOrderStatus, callGetUser, get_order_status,
        get_user, simulate_status, exPayment, exFaults, exWorld, exUserSt, exOrdersSt,
        exPaySt, exUser, exUser2, exOrder, exOrder2, List.find?, hd])

/-- Claim C3: a payment referencing a nonexistent order id fails 404
InvalidOrder with nothing written — but contrary to the claim the error
counter of the payments service does not move: the source declares err_ctr
with the comment saying counter plus one on error, yet never adds to it.
This closed run evaluates the code at the failing input and shows the
counter unchanged at 0 where the claim requires 1. -/
theorem create_payment_invalid_order_behavior :
    (create_payment exPaymentBadOrder exFaults exWorld).1 =
      .error ⟨404, "Invalid order ID"⟩ ∧
    (create_payment exPaymentBadOrder exFaults exWorld).2.1.paySvc.payments = [] ∧
    (create_payment exPaymentBadOrder exFaults exWorld).2.1.paySvc.errCtr = 0 := by
  simp [create_payment, callOrderStatus, get_order_status, get_user,
    exPaymentBadOrder, exFaults, exWorld, exUserSt, exOrdersSt, exPaySt,
    exUser, exUser2, exOrder, exOrder2, List.find?]

/-- Claim C4: when the referenced order exists but its owner differs from
the request user, create_payment fails 400 OwnershipMismatch with the
order.user.mismatch attribute true, the payments service has issued only
the single stage-2 order call (the comparison itself is in-memory), and
the payments-service state, including the store, is unchanged. -/
theorem create_payment_ownership_mismatch (payment : PaymentIn) (f : Faults)
    (w : World) (ord : Order) (u : User)
    (hfresh : w.paySvc.payments.find? (fun p => p.id == payment.id) = none)
    (hord : w.orderSvc.orders.find? (fun o => o.id == payment.order_id) = some ord)
    (hmis : ord.user_id ≠ payment.user_id)
    (huser : w.userSvc.users.find? (fun x => x.id == ord.user_id) = some u)
    (hT1 : f.orderCallTransport = true)
    (hT2 : f.ordUserCallTransport = true) :
    (create_payment payment f w).1 = .error ⟨400, "Order does not belong to user"⟩ ∧
    ("order.user.mismatch", AttrVal.b true) ∈ (create_payment payment f w).2.2.attrs ∧
    (create_payment payment f w).2.2.remoteCalls = [orderStatusUrl payment.order_id] ∧
    (create_payment payment f w).2.1.paySvc = w.paySvc := by
  simp [create_payment, callOrderStatus, get_order_status, get_user,
    hfresh, hord, hT1, hT2, huser, hmis]

/-- Closed instance of create_payment_ownership_mismatch at the fixture input. -/
theorem create_payment_ownership_mismatch_inst :
    (create_payment exPaymentMismatch exFaults exWorld).1 =
      .error ⟨400, "Order does not belong to user"⟩ ∧
    ("order.user.mismatch", AttrVal.b true) ∈
      (create_payment exPaymentMismatch exFaults exWorld).2.2.attrs ∧
    (create_payment exPaymentMismatch exFaults exWorld).2.2.remoteCalls =
      [orderStatusUrl exPaymentMismatch.order_id] ∧
    (create_payment exPaymentMismatch exFaults exWorld).2.1.paySvc = exWorld.paySvc :=
  create_payment_ownership_mismatch exPaymentMismatch exFaults exWorld exOrder2 exUser2
    rfl rfl (by decide) rfl rfl rfl

/-- Claim C6, counterexample: the code validates no lower bound on the
amount, so a create_payment request carrying amount -1 runs the full happy
path and persists a Payment row with a negative amount. -/
theorem payment_negative_amount_cex :
    (create_payment exPaymentNeg exFaults exWorld).2.1.paySvc.payments =
      [⟨"P6", "O1", "U1", -1, "Success"⟩] ∧
    ((-1 : ℚ) < 0) := by
  constructor
  · have hd : ((1 : ℚ) > 0.05) := by norm_num
    simp [create_payment, callOrderStatus, callGetUser, get_order_status, get_user,
      simulate_status, exPaymentNeg, exFaults, exWorld, exUserSt, exOrdersSt, exPaySt,
      exUser, exUser2, exOrder, exOrder2, List.find?, hd]
  · norm_num

/-- Claim C6, amended: create_payment persists the request amount verbatim
without any non-negativity check, so non-negativity of stored amounts is
preserved, not enforced: if every stored amount and the request amount are
non-negative, every amount stored after the call is non-negative. -/
theorem create_payment_amount_nonneg_preserved (payment : PaymentIn) (f : Faults)
    (w : World)
    (h0 : ∀ q ∈ w.paySvc.payments, 0 ≤ q.amount)
    (h1 : 0 ≤ payment.amount) :
    ∀ q ∈ (create_payment payment f w).2.1.paySvc.payments, 0 ≤ q.amount := by
  intro q hq
  simp only [create_payment] at hq
  repeat' split at hq
  all_goals simp_all
  all_goals
    rcases hq with hq | hq
    · exact h0 q hq
    · rw [hq]; exact h1

/-- Closed instance of create_payment_amount_nonneg_preserved. -/
theorem create_payment_amount_nonneg_preserved_inst :
    (create_payment exPayment exFaults exWorld).2.1.paySvc.payments.all
      (fun q => decide (0 ≤ q.amount)) = true := by
  have h := create_payment_amount_nonneg_preserved exPayment exFaults exWorld
    (by simp [exWorld, exPaySt]) (by norm_num [exPayment])
  rw [List.all_eq_true]
  intro q hq
  simpa using h q hq

/-- Claim C10: on the valid path with a Success draw, the payments-total
counter is increased in stage 5 before the stage 6 insert is attempted, so
when the insert fails the request errors out with the counter already
increased by the amount while no Payment row was written. -/
theorem create_payment_counter_before_insert (payment : PaymentIn) (f : Faults)
    (w : World) (ord : Order) (u : User)
    (hfresh : w.paySvc.payments.find? (fun p => p.id == payment.id) = none)
    (hord : w.orderSvc.orders.find? (fun o => o.id == payment.order_id) = some ord)
    (howner : ord.user_id = payment.user_id)
    (huser : w.userSvc.users.find? (fun x => x.id == payment.user_id) = some u)
    (hT1 : f.orderCallTransport = true)
    (hT2 : f.ordUserCallTransport = true)
    (hT3 : f.userCallTransport = true)
    (hdraw : f.draw > (0.05 : ℚ))
    (hins : f.insertOk = false) :
    (create_payment payment f w).1 = .error ⟨500, "Internal Server Error"⟩ ∧
    (create_payment payment f w).2.1.paySvc.payTotal =
      w.paySvc.payTotal + payment.amount ∧
    (create_payment payment f w).2.1.paySvc.payments = w.paySvc.payments := by
  simp [create_payment, callOrderStatus, callGetUser, get_order_status, get_user,
    simulate_status, hfresh, hord, howner, huser, hT1, hT2, hT3, hins, hdraw]

/-- Closed instance of create_payment_counter_before_insert. -/
theorem create_payment_counter_before_insert_inst :
    (create_payment exPayment exFaultsNoInsert exWorld).1 =
      .error ⟨500, "Internal Server Error"⟩ ∧
    (create_payment exPayment exFaultsNoInsert exWorld).2.1.paySvc.payTotal =
      exWorld.paySvc.payTotal + exPayment.amount ∧
    (create_payment exPayment exFaultsNoInsert exWorld).2.1.paySvc.payments =
      exWorld.paySvc.payments :=
  create_payment_counter_before_insert exPayment exFaultsNoInsert exWorld exOrder exUser
    rfl rfl rfl rfl rfl rfl rfl (by norm_num [exFaultsNoInsert]) rfl

end Meshpulse
